import Mathlib

/-!
Verification of the in-page capture and crash-correlation engine of the
l2agent-plugin repository (the main-world script in
src/chrome-extension/apiService.js).  The JavaScript source is shallowly
embedded: each JS function becomes a Lean function on an explicit state,
JS objects become a finite graph (a heap of records addressed by Nat),
and the fallible parts of the runtime (String conversion of an object,
JSON.stringify) become Option/Except values.
-/

set_option maxRecDepth 100000
set_option maxHeartbeats 1000000

namespace L2Agent

/-! ## JavaScript string semantics helpers -/

/-- JS substring test `s.includes(pat)` on the character lists. -/
def strIncludes (s pat : String) : Bool :=
  (List.range (s.data.length + 1)).any (fun i => pat.data.isPrefixOf (s.data.drop i))

/-- Lower-casing, on the character list (the `i` regex flag). -/
def jsToLower (s : String) : String := String.mk (s.data.map Char.toLower)

/-- Anchored-at-start regex match (`/^pat/`). -/
def jsStartsWith (s pat : String) : Bool := pat.data.isPrefixOf s.data

/-- Anchored-at-end regex match (`/pat$/`). -/
def jsEndsWith (s pat : String) : Bool :=
  pat.data.reverse.isPrefixOf s.data.reverse

/-- Whitespace for the purposes of `String.prototype.trim` (the common
ASCII white space characters). -/
def jsIsWhitespace (c : Char) : Bool :=
  c == ' ' || c == '\t' || c == '\n' || c == '\r' || c == '\x0b' || c == '\x0c'

/-- JS `s.trim()`. -/
def jsTrim (s : String) : String :=
  String.mk (((s.data.dropWhile jsIsWhitespace).reverse.dropWhile
    jsIsWhitespace).reverse)

/-- JS `s.slice(0, n)`. -/
def jsSlice (s : String) (n : Nat) : String := String.mk (s.data.take n)

/-- Truthiness of a string-or-undefined JS value: defined and non-empty. -/
def optTruthy (o : Option String) : Bool :=
  match o with
  | some s => s != ""
  | none => false

/-- JS `a || b` where `a` is a string-or-undefined value and `b` a string. -/
def orElseStr (o : Option String) (d : String) : String :=
  match o with
  | some s => if s == "" then d else s
  | none => d

/-- JS `a || b` where `a` is a number-or-undefined value and `b` a number
(0 is falsy). -/
def orElseNat (o : Option Nat) (d : Nat) : Nat :=
  match o with
  | some n => if n == 0 then d else n
  | none => d

/-- Rendering of a possibly-undefined value inside a JS template literal:
undefined prints as "undefined". -/
def tmpl (o : Option String) : String := o.getD "undefined"

/-! ## JS value model

Values are primitives or references into a heap of objects; the heap is an
arbitrary function `Nat → JSObject`, so cyclic object graphs (a field
pointing back at its owner) are representable. -/

inductive JSValue where
  | null
  | undef
  | str (s : String)
  | num (n : Int)
  | bool (b : Bool)
  | obj (ref : Nat)
deriving DecidableEq

/-- One heap object, with exactly the capabilities `extractErrorInfo` probes.
String-valued properties that the DOM platform guarantees to be strings
(name, message of an Error, stack, componentStack) are typed as strings;
`toStr` is the result of `String(obj)` (`none` models the TypeError thrown
for an object that cannot be converted to a primitive, e.g.
`Object.create(null)`); `json` is the result of `JSON.stringify(obj)`
(`none` models a throw, e.g. on a cyclic structure or a BigInt field). -/
structure JSObject where
  isError : Bool := false
  isErrorEvent : Bool := false
  isDOMException : Bool := false
  name : Option String := none
  message : Option String := none
  stack : Option String := none
  cause : Option JSValue := none
  error : Option JSValue := none
  reason : Option JSValue := none
  componentStack : Option String := none
  type : Option String := none
  code : Option Nat := none
  fileName : Option String := none
  lineNumber : Option Nat := none
  columnNumber : Option Nat := none
  filename : Option String := none
  lineno : Option Nat := none
  colno : Option Nat := none
  json : Option String := none
  ctorName : Option String := none
  toStr : Option String := none
deriving DecidableEq

/-- A heap: object references resolve through it. -/
abbrev Heap := Nat → JSObject

/-- JS truthiness of a value. -/
def truthy : JSValue → Bool
  | .null => false
  | .undef => false
  | .str s => s != ""
  | .num n => n != 0
  | .bool b => b
  | .obj _ => true

/-- Truthiness of a possibly-undefined property holding a JS value. -/
def truthyVal (o : Option JSValue) : Bool :=
  match o with
  | some v => truthy v
  | none => false

/-- JS `typeof`. -/
def jsTypeof : JSValue → String
  | .null => "object"
  | .undef => "undefined"
  | .str _ => "string"
  | .num _ => "number"
  | .bool _ => "boolean"
  | .obj _ => "object"

/-- JS `String(v)`. On an object it consults `toStr`; `none` models the
TypeError thrown when the object cannot be converted to a primitive. -/
def jsToString (env : Heap) : JSValue → Except Unit String
  | .null => .ok "null"
  | .undef => .ok "undefined"
  | .str s => .ok s
  | .num n => .ok (toString n)
  | .bool b => .ok (toString b)
  | .obj r =>
    match (env r).toStr with
    | some s => .ok s
    | none => .error ()

/-- Optional-chained property read `v?.name`. -/
def jsGetName (env : Heap) (o : Option JSValue) : Option String :=
  match o with
  | some (.obj r) => (env r).name
  | _ => none

/-- Optional-chained property read `v?.message`. -/
def jsGetMessage (env : Heap) (o : Option JSValue) : Option String :=
  match o with
  | some (.obj r) => (env r).message
  | _ => none

/-- Optional-chained property read `v?.stack`. -/
def jsGetStack (env : Heap) (o : Option JSValue) : Option String :=
  match o with
  | some (.obj r) => (env r).stack
  | _ => none

/-! ## Pattern filters (apiService.js lines 352-427)

The JS patterns are regular expressions; each is translated to the boolean
test it performs on the (already trimmed) message. -/

/-- IGNORED_ERROR_PATTERNS: each regex as a test on the trimmed message.
The two ResizeObserver entries of the source are both case-insensitive
anchored prefixes; `Script error\.?` allows one optional trailing dot. -/
def IGNORED_ERROR_PATTERNS : List (String → Bool) :=
  [ fun s => jsToLower s == "unknown error",
    fun s => jsToLower s == "undefined",
    fun s => jsToLower s == "null",
    fun s => jsToLower s == "script error" || jsToLower s == "script error.",
    fun s => jsStartsWith (jsToLower s) "resizeobserver loop",
    fun s => jsStartsWith (jsToLower s)
      "resizeobserver loop completed with undelivered notifications",
    fun s => s == "[object Object]",
    fun s => s == "[object Event]",
    fun s => s == "Object",
    fun s => s == "Error" ]

/-- IGNORED_CONSOLE_PATTERNS: dev-tooling noise, tested on the untrimmed
message (the source applies these to `message`, not `trimmed`). -/
def IGNORED_CONSOLE_PATTERNS : List (String → Bool) :=
  [ fun s => jsStartsWith (jsToLower s) "[hmr]",
    fun s => jsStartsWith s "%c",
    fun s => jsStartsWith (jsToLower s) "[webpack",
    fun s => jsStartsWith (jsToLower s) "download the react devtools",
    fun s => jsStartsWith (jsToLower s)
      "warning: reactdom.render is no longer supported",
    fun s => jsStartsWith (jsToLower s)
      "warning: componentwillmount has been renamed",
    fun s => jsStartsWith (jsToLower s)
      "warning: componentwillreceiveprops has been renamed",
    fun s => jsStartsWith (jsToLower s)
      "warning: componentwillupdate has been renamed" ]

/-- shouldIgnoreError (lines 376-388).  The JS guard
`!message || typeof message !== "string"` reduces, for a string input, to
the empty-string test. -/
def shouldIgnoreError (message : String) : Bool :=
  if message == "" then true
  else
    let trimmed := jsTrim message
    if trimmed.length == 0 then true
    else if trimmed.length < 3 then true
    else IGNORED_ERROR_PATTERNS.any (fun p => p trimmed)

/-- shouldIgnoreConsoleError (lines 390-398). -/
def shouldIgnoreConsoleError (message : String) : Bool :=
  if shouldIgnoreError message then true
  else IGNORED_CONSOLE_PATTERNS.any (fun p => p message)

/-- realErrorTypes, the allowlist inside isRealError (lines 402-416). -/
def realErrorTypes : List String :=
  [ "Error", "TypeError", "ReferenceError", "SyntaxError", "RangeError",
    "URIError", "EvalError", "AggregateError", "InternalError",
    "DOMException", "NetworkError", "AbortError", "ChunkLoadError" ]

/-- `o?.includes(t)` for a string-or-undefined receiver. -/
def optIncludes (o : Option String) (t : String) : Bool :=
  match o with
  | some s => strIncludes s t
  | none => false

/-- isRealError (lines 400-427): a real type name occurring in the error
type or the message, OR a non-trivial non-noise message. -/
def isRealError (errorType : Option String) (message : String) : Bool :=
  let hasRealType := realErrorTypes.any
    (fun t => optIncludes errorType t || strIncludes message t)
  let hasRealMessage :=
    message != "" && message.length > 5 && !(shouldIgnoreError message)
  hasRealType || hasRealMessage

/-! ## Error normalizer: extractErrorInfo (lines 456-535)

The JS function recurses with an increasing `depth` argument guarded by
`if (depth > 3) return sentinel`.  To make the recursion structural we
pass the remaining budget `fuel = 4 - depth`; `extractErrorInfo` below
recovers the source signature.  The result is `Except Unit ErrInfo`: the
`.error` case models a JS exception escaping the function (only possible
where the source calls `String(·)` outside any try/catch). -/

/-- The record extractErrorInfo builds.  Fields absent in a branch are
undefined in JS and `none` here. -/
structure ErrInfo where
  type : Option String := none
  message : Option String := none
  stack : Option String := none
  cause : Option String := none
  name : Option String := none
  code : Option Nat := none
  fileName : Option String := none
  lineNumber : Option Nat := none
  columnNumber : Option Nat := none
  filename : Option String := none
  lineno : Option Nat := none
  colno : Option Nat := none
  componentStack : Option String := none
deriving DecidableEq

/-- The depth-cap sentinel `{ message: "[Max depth reached]", type: "unknown" }`. -/
def maxDepthSentinel : ErrInfo :=
  { message := some "[Max depth reached]", type := some "unknown" }

/-- Structural worker for extractErrorInfo; `fuel = 4 - depth`, so fuel 0
is exactly the `depth > 3` case of the source. -/
def extractErrorInfoGo (env : Heap) : Nat → JSValue → Except Unit ErrInfo
  | 0, _ => .ok maxDepthSentinel
  | fuel + 1, arg =>
    match arg with
    | .null => .ok { message := some "null", type := some "null" }
    | .undef => .ok { message := some "undefined", type := some "undefined" }
    | .str s => .ok { type := some "string", message := some s }
    | .num n => .ok { type := some "number", message := some (toString n) }
    | .bool b => .ok { type := some "boolean", message := some (toString b) }
    | .obj r =>
      let o := env r
      if o.isError then do
        let causeMsg : Option String ←
          if truthyVal o.cause then do
            let ci ← extractErrorInfoGo env fuel (o.cause.getD .undef)
            pure ci.message
          else pure none
        .ok { type := some (orElseStr o.name "Error"),
              message := some (orElseStr o.message "No message"),
              stack := some (orElseStr o.stack ""),
              cause := causeMsg,
              code := o.code,
              fileName := o.fileName,
              lineNumber := o.lineNumber,
              columnNumber := o.columnNumber,
              componentStack := o.componentStack }
      else if o.isErrorEvent then
        .ok { type := some (orElseStr (jsGetName env o.error) "ErrorEvent"),
              message := some (orElseStr o.message
                (orElseStr (jsGetMessage env o.error) "ErrorEvent")),
              stack := some (orElseStr (jsGetStack env o.error) ""),
              filename := o.filename,
              lineno := o.lineno,
              colno := o.colno }
      else if o.isDOMException then
        .ok { type := some "DOMException",
              message := o.message,
              name := o.name,
              code := o.code }
      else
        -- typeof arg === "object" (non-null object)
        if optTruthy o.componentStack then do
          let msg ←
            if optTruthy o.message then pure (o.message.getD "")
            else jsToString env (.obj r)
          .ok { type := some "ReactError",
                message := some msg,
                componentStack := o.componentStack,
                stack := some (orElseStr (jsGetStack env o.error)
                  (orElseStr o.stack "")) }
        else if o.message.isSome then
          .ok { type := some (orElseStr o.name (orElseStr o.type "ObjectError")),
                message := some (o.message.getD ""),
                stack := some (orElseStr o.stack ""),
                code := o.code }
        else if truthyVal o.error then
          extractErrorInfoGo env fuel (o.error.getD .undef)
        else if truthyVal o.reason then
          extractErrorInfoGo env fuel (o.reason.getD .undef)
        else
          match o.json with
          | some str =>
            if str != "" && str != "\x7b\x7d" then
              .ok { type := some "Object", message := some (jsSlice str 2000) }
            else do
              let msg ← jsToString env (.obj r)
              .ok { type := some (orElseStr o.ctorName "Object"),
                    message := some msg }
          | none => do
            -- JSON.stringify threw; the catch falls through to the fallback
            let msg ← jsToString env (.obj r)
            .ok { type := some (orElseStr o.ctorName "Object"),
                  message := some msg }

/-- extractErrorInfo with the source signature (arg, depth). -/
def extractErrorInfo (env : Heap) (arg : JSValue) (depth : Nat) : Except Unit ErrInfo :=
  extractErrorInfoGo env (4 - depth) arg

/-- formatArgs (lines 537-547).  An element for which `info.stack` is falsy
contributes `info.message`; `message` is set by every branch of the
normalizer, so the JS join never sees undefined. -/
def formatArgs (env : Heap) (args : List JSValue) : Except Unit String := do
  let parts ← args.mapM (fun arg => do
    let info ← extractErrorInfo env arg 0
    if optTruthy info.stack then
      pure (tmpl info.type ++ ": " ++ tmpl info.message ++ "\n" ++ tmpl info.stack)
    else
      pure (info.message.getD ""))
  pure (String.intercalate " " parts)

/-! ## Capture paths: the console overrides and window listeners

Each override is a function from its JS inputs to
`Except Unit (Option CapturedRecord)`:
`.ok none` - the original primitive runs, nothing is stored;
`.ok (some rec)` - the original primitive runs and `rec` is pushed into the
local buffer and forwarded;
`.error ()` - the agent bookkeeping threw before reaching the original
primitive, so the exception escapes to the page caller and the original
console method is never invoked.
`timestamp` and `url` of the source records come from the ambient clock and
location and are omitted; `curStack` is the ambient `getCurrentStack()`. -/

/-- The normalized record a capture path stores. -/
structure CapturedRecord where
  type : String
  errorType : String
  message : String
  stack : String := ""
  componentStack : Option String := none
  filename : Option String := none
  lineno : Option Nat := none
  colno : Option Nat := none
  reason : Option String := none
deriving DecidableEq

/-- console.error override (lines 690-728). -/
def consoleErrorOverride (env : Heap) (curStack : String) (args : List JSValue) :
    Except Unit (Option CapturedRecord) :=
  match args.mapM (fun arg => extractErrorInfo env arg 0) with
  | .error e => .error e
  | .ok errorInfos =>
    -- errorInfos.find((e) => e.stack) || errorInfos[0] || {}
    let primaryError :=
      (((errorInfos.find? (fun e => optTruthy e.stack)).orElse
        (fun _ => errorInfos.head?)).getD {})
    match formatArgs env args with
    | .error e => .error e
    | .ok message =>
      if shouldIgnoreConsoleError message then .ok none
      else if !(isRealError primaryError.type message) then .ok none
      else .ok (some
        { type := "console.error",
          errorType := orElseStr primaryError.type "console.error",
          message := message,
          stack := orElseStr primaryError.stack curStack,
          componentStack := primaryError.componentStack })

/-- console.warn override (lines 733-751): stores unconditionally, with no
noise filtering. -/
def consoleWarnOverride (env : Heap) (curStack : String) (args : List JSValue) :
    Except Unit (Option CapturedRecord) :=
  match formatArgs env args with
  | .error e => .error e
  | .ok message =>
    .ok (some
      { type := "console.warn",
        errorType := "Warning",
        message := message,
        stack := curStack })

/-- The `error` event delivered to the window listener (lines 779-844). -/
structure WinErrorEvent where
  message : String := ""
  filename : String := ""
  lineno : Nat := 0
  colno : Nat := 0
  error : Option JSValue := none
deriving DecidableEq

/-- The errorInfo computation at the top of the window error listener. -/
def windowErrorInfo (env : Heap) (e : WinErrorEvent) : Except Unit ErrInfo :=
  match e.error with
  | some v =>
    if truthy v then extractErrorInfo env v 0
    else if e.message != "" then
      .ok { type := some "Error", message := some e.message,
            filename := some e.filename, lineno := some e.lineno,
            colno := some e.colno }
    else .ok { type := some "Error", message := some "", stack := some "" }
  | none =>
    if e.message != "" then
      .ok { type := some "Error", message := some e.message,
            filename := some e.filename, lineno := some e.lineno,
            colno := some e.colno }
    else .ok { type := some "Error", message := some "", stack := some "" }

/-- window "error" listener (lines 779-844). -/
def windowErrorHandler (env : Heap) (e : WinErrorEvent) :
    Except Unit (Option CapturedRecord) :=
  match windowErrorInfo env e with
  | .error err => .error err
  | .ok errorInfo =>
    let message := orElseStr errorInfo.message e.message
    if shouldIgnoreError message then .ok none
    else
      let hasUsefulInfo :=
        (e.filename != "") || decide (e.lineno > 0) || optTruthy errorInfo.stack
      if !hasUsefulInfo && !(isRealError errorInfo.type message) then .ok none
      else .ok (some
        { type := "uncaught_error",
          errorType := orElseStr errorInfo.type "Error",
          message := orElseStr (some message) "Uncaught error",
          filename := some (orElseStr (some e.filename)
            (orElseStr errorInfo.fileName "")),
          lineno := some (orElseNat (some e.lineno)
            (orElseNat errorInfo.lineNumber 0)),
          colno := some (orElseNat (some e.colno)
            (orElseNat errorInfo.columnNumber 0)),
          stack := orElseStr errorInfo.stack
            (orElseStr (jsGetStack env e.error) ""),
          componentStack := errorInfo.componentStack })

/-- JSON.stringify at the unhandledrejection site; only reached when
`typeof reason === "object"`, i.e. for null or an object reference. -/
def jsonStringifyObj (env : Heap) : JSValue → Option String
  | .null => some "null"
  | .obj r => (env r).json
  | _ => none

/-- window "unhandledrejection" listener (lines 849-885).  The `reason`
field is `JSON.stringify(e.reason, null, 2)?.slice(0, 2000)` for objects
(a stringify throw escapes the listener, hence the Except bind) and
`String(e.reason)` otherwise. -/
def unhandledRejectionHandler (env : Heap) (reason : JSValue) :
    Except Unit (Option CapturedRecord) :=
  match extractErrorInfo env reason 0 with
  | .error err => .error err
  | .ok errorInfo =>
    let message := orElseStr errorInfo.message ""
    if shouldIgnoreError message then .ok none
    else if !(isRealError errorInfo.type message) then .ok none
    else
      let reasonStr : Except Unit String :=
        if jsTypeof reason == "object" then
          match jsonStringifyObj env reason with
          | some s => .ok (jsSlice s 2000)
          | none => .error ()
        else jsToString env reason
      match reasonStr with
      | .error err => .error err
      | .ok rs =>
        .ok (some
          { type := "unhandled_rejection",
            errorType := orElseStr errorInfo.type "PromiseRejection",
            message := orElseStr (some message) "Promise rejected",
            stack := orElseStr errorInfo.stack "",
            componentStack := errorInfo.componentStack,
            reason := some rs })

/-! ## Network interceptor: trace-id extraction and entry classification
(apiService.js lines 338-347, 890-898, 965-1187) -/

/-- TRACE_ID_HEADERS (lines 338-347), in source order. -/
def TRACE_ID_HEADERS : List String :=
  [ "x-trace-id", "x-request-id", "x-correlation-id", "traceparent",
    "x-amzn-trace-id", "x-b3-traceid", "request-id", "x-cloud-trace-context" ]

/-- The loop body of extractTraceId: return the first header of the list
whose lookup is truthy (non-null, non-empty).  `getHeader` is the callback
the interceptors pass in; a throwing callback is caught and treated as no
value, so it is modeled as a total function. -/
def scanTraceHeaders (getHeader : String → Option String) :
    List String → Option (String × String)
  | [] => none
  | header :: rest =>
    match getHeader header with
    | some value =>
      if value != "" then some (header, value)
      else scanTraceHeaders getHeader rest
    | none => scanTraceHeaders getHeader rest

/-- extractTraceId (lines 890-898, the main-world helper; the identically
named backend-facing helper in the first half of the file is unrelated). -/
def extractTraceId (getHeader : String → Option String) : Option (String × String) :=
  scanTraceHeaders getHeader TRACE_ID_HEADERS

/-- One observed request/response record, as fed to storeApiRequest.
`errorDetails`, `statusText`, `duration`, bodies and the header maps of the
source records are never inspected by any claim and are omitted. -/
structure NetEntry where
  type : String
  method : String
  url : String
  status : Nat
  traceId : Option String := none
  traceIdHeader : Option String := none
  isError : Bool
deriving DecidableEq

/-- The entry built in the XHR `loadend` listener (lines 1009-1026):
`isError: xhr.status === 0 || xhr.status >= 400`. -/
def mkXhrLoadendEntry (method url : String) (status : Nat)
    (getHeader : String → Option String) : NetEntry :=
  let traceInfo := extractTraceId getHeader
  { type := "xhr", method := method, url := url, status := status,
    traceId := traceInfo.map (fun p => p.2),
    traceIdHeader := traceInfo.map (fun p => p.1),
    isError := status == 0 || decide (400 ≤ status) }

/-- The entry built in the XHR `error` listener (lines 1039-1052). -/
def mkXhrNetworkErrorEntry (method url : String) : NetEntry :=
  { type := "xhr_network_error", method := method, url := url,
    status := 0, isError := true }

/-- The entry built in the XHR `timeout` listener (lines 1054-1067). -/
def mkXhrTimeoutEntry (method url : String) : NetEntry :=
  { type := "xhr_timeout", method := method, url := url,
    status := 0, isError := true }

/-- Modelled from the web platform (WHATWG Fetch): `Response.ok` is true
iff the status is in the range 200-299. -/
def responseOk (status : Nat) : Bool :=
  decide (200 ≤ status) && decide (status ≤ 299)

/-- The entry built on the fetch success path (lines 1138-1155):
`isError: !response.ok`. -/
def mkFetchEntry (method url : String) (status : Nat)
    (getHeader : String → Option String) : NetEntry :=
  let traceInfo := extractTraceId getHeader
  { type := "fetch", method := method, url := url, status := status,
    traceId := traceInfo.map (fun p => p.2),
    traceIdHeader := traceInfo.map (fun p => p.1),
    isError := !(responseOk status) }

/-- The entry built on the fetch rejection path (lines 1168-1182). -/
def mkFetchRejectEntry (method url : String) : NetEntry :=
  { type := "fetch_error", method := method, url := url,
    status := 0, isError := true }

/-! ## Sliding API window buffer: storeApiRequest (lines 322-335, 900-960) -/

def API_BUFFER_SIZE : Nat := 4

def API_AFTER_ERROR_COUNT : Nat := 3

/-- The mutable module state touched by storeApiRequest, plus the trace of
postMessage events (`sent`) so that forwarding order is observable.
`lastErrorTimestamp` is written but never read and is omitted. -/
structure StoreState where
  apiBuffer : List NetEntry := []
  pendingAfterError : Nat := 0
  apiRequests : List NetEntry := []
  api : List NetEntry := []
  sent : List (String × NetEntry) := []
deriving DecidableEq

/-- storeApiRequest (lines 900-960).  JS push appends at the tail, shift
drops the head. -/
def storeApiRequest (s : StoreState) (entry : NetEntry) : StoreState :=
  let s1 :=
    if entry.isError then
      -- flush the buffered "before" requests, then the error itself
      let afterFlush := { s with
        apiRequests := s.apiRequests ++ s.apiBuffer,
        sent := s.sent ++ s.apiBuffer.map (fun b => ("api_request", b)),
        apiBuffer := [] }
      let withErr := { afterFlush with
        apiRequests := afterFlush.apiRequests ++ [entry],
        sent := afterFlush.sent ++ [("api_request", entry)] }
      let apiPushed := withErr.api ++ [entry]
      { withErr with
        api := if apiPushed.length > 100 then apiPushed.tail else apiPushed,
        sent := withErr.sent ++ [("api_error", entry)],
        pendingAfterError := API_AFTER_ERROR_COUNT }
    else if s.pendingAfterError > 0 then
      { s with
        apiRequests := s.apiRequests ++ [entry],
        sent := s.sent ++ [("api_request", entry)],
        pendingAfterError := s.pendingAfterError - 1 }
    else
      let buf := s.apiBuffer ++ [entry]
      { s with apiBuffer := if buf.length > API_BUFFER_SIZE then buf.tail else buf }
  -- trailing trim: a single shift regardless of how many pushes happened
  if s1.apiRequests.length > 100 then { s1 with apiRequests := s1.apiRequests.tail }
  else s1

/-- Run storeApiRequest over a sequence of settled calls from the initial
module state. -/
def runStore (entries : List NetEntry) : StoreState :=
  entries.foldl storeApiRequest {}

/-- The `push` / `if (length > cap) shift()` idiom used for
localErrors.console (cap 100, console.error and console.warn paths),
localErrors.page (cap 50) and localErrors.api (cap 100). -/
def pushTrim {α : Type} (cap : Nat) (buf : List α) (e : α) : List α :=
  let b := buf ++ [e]
  if b.length > cap then b.tail else b

/-! ## Crash detector (lines 563-685) and DOM crash watcher (lines 1192-1263)

Single-threaded event model: the page delivers a stream of timestamped
events (a captured ErrorRecord reaching checkForErrorBasedCrash, or a
scheduled checkForDOMCrash whose detectDOMCrash DOM query produced a given
reason).  The 10-second `setTimeout` scheduled by triggerCrashFromError is
kept as `unlatchAt` and fires before any event whose time has reached it,
which is exactly the cooperative scheduling of the browser.  The DOM
itself is outside the program, so the result of detectDOMCrash (the first
matching visible selector, or nothing) is the event payload. -/

/-- CRASH_ERROR_PATTERNS (lines 563-576), each regex as the test it
performs (all are case-insensitive substring or suffix tests; `chunk.*failed`
is "chunk" followed somewhere later by "failed"). -/
def CRASH_ERROR_PATTERNS : List (String → Bool) :=
  [ fun m => jsEndsWith (jsToLower m) "is not defined",
    fun m => jsEndsWith (jsToLower m) "is not a function",
    fun m => strIncludes (jsToLower m) "cannot read propert",
    fun m => strIncludes (jsToLower m) "cannot set propert",
    fun m => strIncludes (jsToLower m) "undefined is not",
    fun m => strIncludes (jsToLower m) "null is not",
    fun m => strIncludes (jsToLower m) "maximum call stack",
    fun m => strIncludes (jsToLower m) "out of memory",
    fun m => (List.range ((jsToLower m).data.length + 1)).any (fun i =>
      "chunk".data.isPrefixOf ((jsToLower m).data.drop i) &&
      strIncludes (String.mk ((jsToLower m).data.drop (i + 5))) "failed"),
    fun m => strIncludes (jsToLower m) "loading chunk",
    fun m => strIncludes (jsToLower m) "dynamically imported module",
    fun m => strIncludes (jsToLower m) "failed to fetch" ]

/-- CRASH_ERROR_TYPES (lines 578-583). -/
def CRASH_ERROR_TYPES : List String :=
  [ "ReferenceError", "TypeError", "ChunkLoadError", "SyntaxError" ]

/-- isCriticalError (lines 589-603). -/
def isCriticalError (errorType message : String) : Bool :=
  if CRASH_ERROR_TYPES.contains errorType then true
  else CRASH_ERROR_PATTERNS.any (fun p => p message)

/-- The slice of an ErrorRecord inspected by the crash detector. -/
structure ErrEntry where
  errorType : String
  message : String
  componentStack : Option String := none
deriving DecidableEq

inductive DetectionMethod where
  | error_based
  | dom_based
deriving DecidableEq

/-- The crash detector module state.  `emitted` is the trace of
crash_detected events (time, detection method) posted to the content
script; `unlatchAt` is the pending 10-second setTimeout of
triggerCrashFromError. -/
structure CrashState where
  recentCriticalErrors : List (ErrEntry × Nat) := []
  crashTriggered : Bool := false
  unlatchAt : Option Nat := none
  lastDOMCrashReason : Option String := none
  emitted : List (Nat × DetectionMethod) := []
deriving DecidableEq

def initialCrashState : CrashState := {}

/-- triggerCrashFromError (lines 637-685): latch, emit, schedule the
10-second unlatch (which will also clear recentCriticalErrors). -/
def triggerCrashFromError (now : Nat) (s : CrashState) : CrashState :=
  { s with
    crashTriggered := true,
    emitted := s.emitted ++ [(now, DetectionMethod.error_based)],
    unlatchAt := some (now + 10000) }

/-- checkForErrorBasedCrash (lines 605-635).  The JS prune keeps entries
with `capturedAt > now - 60000`; that comparison is written here as
`now < capturedAt + 60000` to avoid truncated Nat subtraction. -/
def checkForErrorBasedCrash (now : Nat) (s : CrashState) (entry : ErrEntry) :
    CrashState :=
  if isCriticalError entry.errorType entry.message then
    let recents := (s.recentCriticalErrors ++ [(entry, now)]).filter
      (fun e => now < e.2 + 60000)
    let s := { s with recentCriticalErrors := recents }
    let shouldTriggerCrash :=
      entry.errorType == "ReferenceError" ||
      strIncludes entry.message "is not defined" ||
      optTruthy entry.componentStack ||
      decide (3 ≤ recents.length)
    if shouldTriggerCrash && !s.crashTriggered then
      triggerCrashFromError now s
    else s
  else s

/-- checkForDOMCrash (lines 1226-1250).  `detected` is the reason string
detectDOMCrash produced from the document, or none. -/
def checkForDOMCrash (now : Nat) (s : CrashState) (detected : Option String) :
    CrashState :=
  match detected with
  | some reason =>
    if s.lastDOMCrashReason != some reason then
      let s := { s with lastDOMCrashReason := some reason }
      if !s.crashTriggered then
        { s with emitted := s.emitted ++ [(now, DetectionMethod.dom_based)] }
      else s
    else s
  | none => s

/-- Fire the pending cooldown timer if its time has been reached:
`crashTriggered = false; recentCriticalErrors = []` (lines 681-684). -/
def runPendingUnlatch (now : Nat) (s : CrashState) : CrashState :=
  match s.unlatchAt with
  | some u =>
    if u ≤ now then
      { s with crashTriggered := false, recentCriticalErrors := [],
               unlatchAt := none }
    else s
  | none => s

/-- One scheduler event reaching the detector. -/
inductive AgentEvent where
  | errorRecord (t : Nat) (e : ErrEntry)
  | domCheck (t : Nat) (detected : Option String)
deriving DecidableEq

def eventTime : AgentEvent → Nat
  | .errorRecord t _ => t
  | .domCheck t _ => t

/-- Deliver one event: pending timers whose deadline has passed fire
first, then the event is dispatched. -/
def crashStep (s : CrashState) (ev : AgentEvent) : CrashState :=
  match ev with
  | .errorRecord t e => checkForErrorBasedCrash t (runPendingUnlatch t s) e
  | .domCheck t d => checkForDOMCrash t (runPendingUnlatch t s) d

/-- Run the detector over a timestamped event stream from page load. -/
def runCrash (evs : List AgentEvent) : CrashState :=
  evs.foldl crashStep initialCrashState

/-! ## Concrete fixtures used by the theorems -/

/-- A successful settled call as built by the XHR loadend listener. -/
def okReq (u : String) : NetEntry := mkXhrLoadendEntry "GET" u 200 (fun _ => none)

/-- A failed settled call (HTTP 500) as built by the XHR loadend listener. -/
def errReq (u : String) : NetEntry := mkXhrLoadendEntry "GET" u 500 (fun _ => none)

/-- 3 successes, 1 failure, 3 successes, then one more success. -/
def c1Trace : List NetEntry :=
  [okReq "/b1", okReq "/b2", okReq "/b3", errReq "/f",
   okReq "/a1", okReq "/a2", okReq "/a3", okReq "/x"]

/-- A heap whose single object points back at itself through `error`. -/
def selfRefEnv : Heap := fun _ => { error := some (.obj 0) }

/-- A heap modelling `Object.create(null)`: JSON.stringify gives "\x7b\x7d",
there is no constructor, and `String(·)` throws (no toString/valueOf). -/
def protoLessEnv : Heap := fun _ => { json := some "\x7b\x7d" }

/-- The all-default heap (no object is ever dereferenced). -/
def emptyEnv : Heap := fun _ => {}

/-- Response headers carrying two known trace headers at once. -/
def gBoth : String → Option String := fun h =>
  if h == "x-request-id" then some "req-1"
  else if h == "x-trace-id" then some "tr-1"
  else none

/-! ## C1 -/

/-- C1: starting from the empty module state, feeding storeApiRequest
3 successes, 1 failure, then 3 successes persists exactly the 3 before-
records, the failing record, and the 3 after-records, in that order, both
in localErrors.apiRequests and in the forwarded api_request messages (the
failure additionally produces an api_error message); a 7th success is held
in the temporary buffer, unpersisted, until a subsequent failure flushes
it. -/
theorem sliding_window_persists_before_error_after :
    (runStore c1Trace).apiRequests =
      [okReq "/b1", okReq "/b2", okReq "/b3", errReq "/f",
       okReq "/a1", okReq "/a2", okReq "/a3"] ∧
    (runStore c1Trace).sent =
      [("api_request", okReq "/b1"), ("api_request", okReq "/b2"),
       ("api_request", okReq "/b3"), ("api_request", errReq "/f"),
       ("api_error", errReq "/f"), ("api_request", okReq "/a1"),
       ("api_request", okReq "/a2"), ("api_request", okReq "/a3")] ∧
    (runStore c1Trace).apiBuffer = [okReq "/x"] ∧
    okReq "/x" ∉ (runStore c1Trace).apiRequests ∧
    (runStore (c1Trace ++ [errReq "/f2"])).apiRequests =
      [okReq "/b1", okReq "/b2", okReq "/b3", errReq "/f",
       okReq "/a1", okReq "/a2", okReq "/a3", okReq "/x", errReq "/f2"] := by
  refine ⟨rfl, rfl, rfl, ?_, rfl⟩
  decide

/-! ## C3 -/

/-- C3 counterexample: the fetch wrapper flags a 304 Not Modified response
as an error (`isError: !response.ok`), although its status is neither 0
nor at least 400; the XHR wrapper does not flag the same status.  The
claimed equivalence "isError iff status = 0 or status >= 400" is
therefore false for fetch-created records. -/
theorem fetch_isError_flags_304 :
    (mkFetchEntry "GET" "/health" 304 (fun _ => none)).isError = true ∧
    ((304 == 0 || decide (400 ≤ 304)) = false) ∧
    (mkXhrLoadendEntry "GET" "/health" 304 (fun _ => none)).isError = false := by
  refine ⟨rfl, by decide, rfl⟩

/-- C3 amended: the XHR loadend path classifies
`isError = (status = 0 or status >= 400)`; the fetch success path
classifies `isError = not (200 <= status <= 299)` (i.e. `!response.ok`),
which also flags 1xx/3xx statuses; the XHR error/timeout listeners and
the fetch rejection path always produce status 0 with isError true. -/
theorem isError_classification_by_wrapper :
    (∀ (m u : String) (st : Nat) (g : String → Option String),
      (mkXhrLoadendEntry m u st g).isError = (st == 0 || decide (400 ≤ st))) ∧
    (∀ (m u : String) (st : Nat) (g : String → Option String),
      (mkFetchEntry m u st g).isError = !(decide (200 ≤ st) && decide (st ≤ 299))) ∧
    (∀ m u : String, (mkXhrNetworkErrorEntry m u).status = 0 ∧
      (mkXhrNetworkErrorEntry m u).isError = true) ∧
    (∀ m u : String, (mkXhrTimeoutEntry m u).status = 0 ∧
      (mkXhrTimeoutEntry m u).isError = true) ∧
    (∀ m u : String, (mkFetchRejectEntry m u).status = 0 ∧
      (mkFetchRejectEntry m u).isError = true) := by
  refine ⟨fun m u st g => rfl, fun m u st g => rfl,
    fun m u => ⟨rfl, rfl⟩, fun m u => ⟨rfl, rfl⟩, fun m u => ⟨rfl, rfl⟩⟩

/-! ## C6 -/

/-- C6: extractErrorInfo is total (it is a Lean function, defined for every
heap including cyclic ones); whenever the depth exceeds the cap of 3 it
returns the sentinel record, and on a self-referential object (an `error`
field pointing back at the object itself) the unwrapping chain bottoms out
in the sentinel instead of recursing forever. -/
theorem extract_error_info_depth_capped :
    (∀ (env : Heap) (arg : JSValue) (depth : Nat), 3 < depth →
      extractErrorInfo env arg depth = .ok maxDepthSentinel) ∧
    extractErrorInfo selfRefEnv (.obj 0) 0 = .ok maxDepthSentinel := by
  constructor
  · intro env arg depth h
    unfold extractErrorInfo
    have h4 : 4 - depth = 0 := by omega
    rw [h4]
    cases arg <;> rfl
  · rfl

/-- Witness for C6 at a concrete capped depth. -/
theorem extract_error_info_depth_capped_witness :
    extractErrorInfo selfRefEnv JSValue.null 7 = .ok maxDepthSentinel :=
  extract_error_info_depth_capped.1 selfRefEnv JSValue.null 7 (by omega)

/-! ## C7 -/

/-- The scan returns the first list element whose header lookup is truthy,
paired with its value. -/
theorem scanTraceHeaders_first (g : String → Option String) :
    ∀ (l : List String) (i : Nat) (hi : i < l.length),
      optTruthy (g (l.get ⟨i, hi⟩)) = true →
      (∀ j (hj : j < i), optTruthy (g (l.get ⟨j, Nat.lt_trans hj hi⟩)) = false) →
      scanTraceHeaders g l = some (l.get ⟨i, hi⟩, (g (l.get ⟨i, hi⟩)).getD "") := by
  intro l
  induction l with
  | nil => intro i hi; exact absurd hi (by simp)
  | cons a l ih =>
    intro i hi htr hprev
    cases i with
    | zero =>
      show scanTraceHeaders g (a :: l) = some (a, (g a).getD "")
      have hga : optTruthy (g a) = true := htr
      unfold scanTraceHeaders
      cases hg : g a with
      | none => rw [hg] at hga; simp [optTruthy] at hga
      | some v =>
        rw [hg] at hga
        have hv : (v != "") = true := hga
        simp [hv]
    | succ i' =>
      have h0 : optTruthy (g a) = false := hprev 0 (Nat.succ_pos i')
      have hi' : i' < l.length := Nat.lt_of_succ_lt_succ hi
      have htr' : optTruthy (g (l.get ⟨i', hi'⟩)) = true := htr
      have hprev' : ∀ j (hj : j < i'),
          optTruthy (g (l.get ⟨j, Nat.lt_trans hj hi'⟩)) = false :=
        fun j hj => hprev (j + 1) (Nat.succ_lt_succ hj)
      have hrec := ih i' hi' htr' hprev'
      show scanTraceHeaders g (a :: l) =
        some (l.get ⟨i', hi'⟩, (g (l.get ⟨i', hi'⟩)).getD "")
      unfold scanTraceHeaders
      cases hg : g a with
      | none => exact hrec
      | some v =>
        rw [hg] at h0
        have hv : (v != "") = false := h0
        simp [hv, hrec]

/-- C7: extractTraceId scans the fixed TRACE_ID_HEADERS list in order and
returns the first header with a (non-empty) value together with that
value; when several of the known headers carry values, the earliest in
list order wins; the XHR and fetch records store the winning value as
traceId and the winning header name as traceIdHeader. -/
theorem trace_header_precedence :
    (∀ (g : String → Option String) (i : Nat) (hi : i < TRACE_ID_HEADERS.length),
      optTruthy (g (TRACE_ID_HEADERS.get ⟨i, hi⟩)) = true →
      (∀ j (hj : j < i),
        optTruthy (g (TRACE_ID_HEADERS.get ⟨j, Nat.lt_trans hj hi⟩)) = false) →
      extractTraceId g = some (TRACE_ID_HEADERS.get ⟨i, hi⟩,
        (g (TRACE_ID_HEADERS.get ⟨i, hi⟩)).getD "")) ∧
    (∀ (m u : String) (st : Nat) (g : String → Option String),
      (mkXhrLoadendEntry m u st g).traceId = (extractTraceId g).map (fun p => p.2) ∧
      (mkXhrLoadendEntry m u st g).traceIdHeader = (extractTraceId g).map (fun p => p.1)) ∧
    (∀ (m u : String) (st : Nat) (g : String → Option String),
      (mkFetchEntry m u st g).traceId = (extractTraceId g).map (fun p => p.2) ∧
      (mkFetchEntry m u st g).traceIdHeader = (extractTraceId g).map (fun p => p.1)) := by
  refine ⟨?_, fun m u st g => ⟨rfl, rfl⟩, fun m u st g => ⟨rfl, rfl⟩⟩
  intro g i hi htr hprev
  exact scanTraceHeaders_first g TRACE_ID_HEADERS i hi htr hprev

/-- Witness for C7: headers carrying both x-trace-id and x-request-id
report x-trace-id, the earlier name in the list. -/
theorem trace_header_precedence_witness :
    extractTraceId gBoth = some ("x-trace-id", "tr-1") := by
  have h := trace_header_precedence.1 gBoth 0 (by decide) (by decide)
    (fun j hj => absurd hj (Nat.not_lt_zero j))
  simpa using h

/-! ## C8 -/

/-- C8 (code-bug evidence): calling the overridden console.error on an
object that cannot be converted to a primitive (`Object.create(null)`)
makes `String(arg)` inside extractErrorInfo throw, and the exception
escapes the override to the page caller before the original console.error
is invoked - the `.error ()` result models exactly that propagation.  The
spec requires every interception point to swallow its own bookkeeping
failures. -/
theorem console_error_override_propagates_normalizer_throw :
    extractErrorInfo protoLessEnv (.obj 0) 0 = .error () ∧
    consoleErrorOverride protoLessEnv "stack-text" [.obj 0] = .error () := by
  exact ⟨rfl, rfl⟩

/-! ## C5 -/

/-- The message string used across the noise-suppression claim. -/
def noiseMsg : String := "ResizeObserver loop completed with undelivered notifications"

/-- A message matches the fixed noise denylist. -/
def matchesNoisePattern (m : String) : Bool :=
  IGNORED_ERROR_PATTERNS.any (fun p => p (jsTrim m))

/-- Any denylist match makes shouldIgnoreError return true. -/
theorem shouldIgnoreError_of_noise {m : String}
    (h : matchesNoisePattern m = true) : shouldIgnoreError m = true := by
  unfold matchesNoisePattern at h
  simp only [shouldIgnoreError]
  split_ifs <;> first | rfl | exact h

/-- C5 counterexample: the console.warn override performs no noise
filtering at all - a warning whose message is exactly the ResizeObserver
noise pattern is stored (and forwarded) even though shouldIgnoreError
returns true for it. -/
theorem console_warn_stores_noise_message :
    shouldIgnoreError noiseMsg = true ∧
    consoleWarnOverride emptyEnv "warn-stack" [.str noiseMsg] =
      .ok (some { type := "console.warn", errorType := "Warning",
                  message := noiseMsg, stack := "warn-stack" }) := by
  exact ⟨rfl, rfl⟩

/-- C5 amended: for every message matching a noise pattern,
shouldIgnoreError (and hence shouldIgnoreConsoleError) returns true, and
the console.error override, the window error listener and the
unhandledrejection listener store no record; the console.warn override
(and the console.assert path) are not guarded by the filter and store the
record regardless. -/
theorem noise_suppressed_in_error_paths :
    ∀ (m : String), matchesNoisePattern m = true →
      shouldIgnoreError m = true ∧
      shouldIgnoreConsoleError m = true ∧
      (∀ (env : Heap) (cs : String) (args : List JSValue) (infos : List ErrInfo),
        args.mapM (fun a => extractErrorInfo env a 0) = .ok infos →
        formatArgs env args = .ok m →
        consoleErrorOverride env cs args = .ok none) ∧
      (∀ (env : Heap) (e : WinErrorEvent) (info : ErrInfo),
        windowErrorInfo env e = .ok info →
        orElseStr info.message e.message = m →
        windowErrorHandler env e = .ok none) ∧
      (∀ (env : Heap) (r : JSValue) (info : ErrInfo),
        extractErrorInfo env r 0 = .ok info →
        orElseStr info.message "" = m →
        unhandledRejectionHandler env r = .ok none) := by
  intro m hm
  have hig : shouldIgnoreError m = true := shouldIgnoreError_of_noise hm
  have hcon : shouldIgnoreConsoleError m = true := by
    unfold shouldIgnoreConsoleError
    simp [hig]
  refine ⟨hig, hcon, ?_, ?_, ?_⟩
  · intro env cs args infos hinfos hfmt
    unfold consoleErrorOverride
    rw [hinfos, hfmt]
    simp [hcon]
  · intro env e info hinfo hmsg
    unfold windowErrorHandler
    rw [hinfo]
    simp [hmsg, hig]
  · intro env r info hinfo hmsg
    unfold unhandledRejectionHandler
    rw [hinfo]
    simp [hmsg, hig]

/-- Witness for C5 at the ResizeObserver message: the three guarded paths
store nothing. -/
theorem noise_suppressed_in_error_paths_witness :
    consoleErrorOverride emptyEnv "stk" [.str noiseMsg] = .ok none ∧
    windowErrorHandler emptyEnv { message := noiseMsg } = .ok none ∧
    unhandledRejectionHandler emptyEnv (.str noiseMsg) = .ok none := by
  have h := noise_suppressed_in_error_paths noiseMsg rfl
  refine ⟨?_, ?_, ?_⟩
  · exact h.2.2.1 emptyEnv "stk" [.str noiseMsg]
      [{ type := some "string", message := some noiseMsg }] rfl rfl
  · exact h.2.2.2.1 emptyEnv { message := noiseMsg }
      { type := some "Error", message := some noiseMsg,
        filename := some "", lineno := some 0, colno := some 0 } rfl rfl
  · exact h.2.2.2.2 emptyEnv (.str noiseMsg)
      { type := some "string", message := some noiseMsg } rfl rfl

/-! ## C9 -/

/-- A long traffic trace: one failure, its three after-records, then 19
cycles of (4 successes, 1 failure), three more after-records, one buffered
success, and one final failure whose flush pushes two records while the
trailing trim evicts only one. -/
def overflowTrace : List NetEntry :=
  [errReq "/e"] ++ List.replicate 3 (okReq "/s") ++
  (List.replicate 19 [okReq "/s", okReq "/s", okReq "/s", okReq "/s",
    errReq "/e"]).flatten ++
  List.replicate 3 (okReq "/s") ++ [okReq "/s", errReq "/e"]

/-- C9 counterexample: the apiRequests store is trimmed by a single shift
per storeApiRequest call, but an error flush pushes up to
API_BUFFER_SIZE + 1 entries at once, so after this trace the store holds
101 entries - beyond its documented capacity of 100. -/
theorem api_requests_store_exceeds_capacity :
    (runStore overflowTrace).apiRequests.length = 101 ∧
    (runStore overflowTrace).apiRequests.length ≠ 100 := by
  exact ⟨rfl, by decide⟩

/-- Generalized fold lemma for the push-then-shift idiom. -/
theorem pushTrim_foldl {α : Type} (cap : Nat) (hcap : 0 < cap) :
    ∀ (xs acc : List α), acc.length ≤ cap →
      List.foldl (pushTrim cap) acc xs =
        (acc ++ xs).drop (acc.length + xs.length - cap) := by
  intro xs
  induction xs with
  | nil =>
    intro acc hacc
    simp [Nat.sub_eq_zero_of_le hacc]
  | cons x xs ih =>
    intro acc hacc
    rw [List.foldl_cons]
    by_cases hlt : acc.length + 1 ≤ cap
    · have hstep : pushTrim cap acc x = acc ++ [x] := by
        unfold pushTrim
        simp only [List.length_append, List.length_singleton]
        have : ¬ (acc.length + 1 > cap) := by omega
        simp [this]
      rw [hstep, ih (acc ++ [x]) (by simpa using hlt)]
      have harr : (acc ++ [x]).length + xs.length - cap =
          acc.length + (x :: xs).length - cap := by
        simp
        omega
      rw [harr, List.append_assoc]
      rfl
    · have heq : acc.length = cap := by omega
      have hne : acc ≠ [] := by
        intro hnil
        rw [hnil] at heq
        simp at heq
        omega
      obtain ⟨a, acc', rfl⟩ := List.exists_cons_of_ne_nil hne
      have hstep : pushTrim cap (a :: acc') x = acc' ++ [x] := by
        unfold pushTrim
        simp only [List.length_append, List.length_cons, List.length_singleton]
        have : acc'.length + 1 + 1 > cap := by
          simp at heq
          omega
        simp [this]
      rw [hstep, ih (acc' ++ [x]) (by simp at heq ⊢; omega)]
      have hlen : (acc' ++ [x]).length + xs.length - cap = xs.length := by
        simp at heq ⊢
        omega
      have hlen2 : (a :: acc').length + (x :: xs).length - cap = xs.length + 1 := by
        simp at heq ⊢
        omega
      rw [hlen, hlen2]
      rw [List.append_assoc]
      rfl

/-- C9 amended: every buffer maintained with the push-then-single-shift
idiom and at most one push per call (localErrors.console via the error and
warn overrides, cap 100; localErrors.page, cap 50; localErrors.api,
cap 100) holds exactly the most recent min(N, cap) items in arrival order
after N appends; the apiRequests store and the console.assert path do not
follow the idiom (see the counterexample). -/
theorem ring_buffer_keeps_most_recent {α : Type} (cap : Nat) (hcap : 0 < cap)
    (xs : List α) :
    List.foldl (pushTrim cap) [] xs = xs.drop (xs.length - cap) ∧
    (List.foldl (pushTrim cap) [] xs).length = min xs.length cap := by
  have h := pushTrim_foldl cap hcap xs [] (by simp)
  simp only [List.nil_append, List.length_nil, Nat.zero_add] at h
  refine ⟨h, ?_⟩
  rw [h, List.length_drop]
  omega

/-- Witness for C9 amended at cap 3. -/
theorem ring_buffer_keeps_most_recent_witness :
    List.foldl (pushTrim 3) ([] : List Nat) [1, 2, 3, 4, 5] = [3, 4, 5] := by
  have h := (ring_buffer_keeps_most_recent 3 (by omega) [1, 2, 3, 4, 5]).1
  rw [h]
  rfl

/-! ## C2 -/

/-- A ReferenceError record as the crash detector sees it. -/
def refErr : ErrEntry :=
  { errorType := "ReferenceError", message := "foo is not defined" }

/-- Five ReferenceErrors within one second. -/
def fiveRefErrs : List AgentEvent :=
  [.errorRecord 0 refErr, .errorRecord 250 refErr, .errorRecord 500 refErr,
   .errorRecord 750 refErr, .errorRecord 1000 refErr]

/-- C2: five ReferenceErrors within one second emit exactly one
error_based CrashEvent (at the first error); a sixth ReferenceError 11
seconds after the fifth arrives after the 10-second cooldown has unlatched
crashTriggered and cleared recentCriticalErrors, and emits a second
CrashEvent. -/
theorem crash_cooldown_exactly_two_emissions :
    (runCrash fiveRefErrs).emitted = [(0, DetectionMethod.error_based)] ∧
    (runCrash (fiveRefErrs ++ [.errorRecord 12000 refErr])).emitted =
      [(0, DetectionMethod.error_based), (12000, DetectionMethod.error_based)] ∧
    (runCrash (fiveRefErrs ++ [.errorRecord 12000 refErr])).recentCriticalErrors =
      [(refErr, 12000)] := by
  exact ⟨rfl, rfl, rfl⟩

/-! ## C4 -/

/-- C4 counterexample: a DOM crash indicator at t=0 emits a dom_based
CrashEvent without latching crashTriggered or starting any cooldown, so a
ReferenceError only 500 ms later emits a second CrashEvent - two
CrashEvents inside the 10-second window that starts at the first
emission. -/
theorem dom_crash_does_not_latch_cooldown :
    (runCrash [.domCheck 0 (some "Element: [class*=crash]"),
               .errorRecord 500 refErr]).emitted =
      [(0, DetectionMethod.dom_based), (500, DetectionMethod.error_based)] ∧
    (500 : Nat) < 0 + 10000 := by
  exact ⟨rfl, by omega⟩

/-- The cooldown ordering on emissions: anything emitted after an
error_based emission is at least 10 seconds later. -/
def cooldownSeparated (a b : Nat × DetectionMethod) : Prop :=
  a.2 = DetectionMethod.error_based → a.1 + 10000 ≤ b.1

/-- Detector invariant carried through the event fold: emissions so far
are cooldown-separated, and either the latch is set with a pending unlatch
at least 10 s after every error_based emission, or the latch is clear and
every error_based emission is at least 10 s old relative to the lower
bound `c` on all future event times. -/
def CrashInv (c : Nat) (s : CrashState) : Prop :=
  s.emitted.Pairwise cooldownSeparated ∧
  ((s.crashTriggered = true ∧ ∃ u, s.unlatchAt = some u ∧
      ∀ p ∈ s.emitted, p.2 = DetectionMethod.error_based → p.1 + 10000 ≤ u) ∨
   (s.crashTriggered = false ∧
      ∀ p ∈ s.emitted, p.2 = DetectionMethod.error_based → p.1 + 10000 ≤ c))

theorem crashInv_mono {c c' : Nat} {s : CrashState}
    (h : CrashInv c s) (hcc : c ≤ c') : CrashInv c' s := by
  obtain ⟨hp, hcase⟩ := h
  refine ⟨hp, ?_⟩
  rcases hcase with h1 | ⟨ht, hb⟩
  · exact Or.inl h1
  · exact Or.inr ⟨ht, fun p hp' hm => le_trans (hb p hp' hm) hcc⟩

theorem crashInv_fields {c : Nat} {s s' : CrashState} (h : CrashInv c s)
    (he : s'.emitted = s.emitted) (ht : s'.crashTriggered = s.crashTriggered)
    (hu : s'.unlatchAt = s.unlatchAt) : CrashInv c s' := by
  unfold CrashInv
  rw [he, ht, hu]
  exact h

theorem crashInv_unlatch {c t : Nat} {s : CrashState}
    (h : CrashInv c s) (hct : c ≤ t) : CrashInv t (runPendingUnlatch t s) := by
  unfold runPendingUnlatch
  cases hu : s.unlatchAt with
  | none => exact crashInv_mono h hct
  | some u =>
    show CrashInv t (if u ≤ t then
      { s with crashTriggered := false, recentCriticalErrors := [],
               unlatchAt := none } else s)
    by_cases hle : u ≤ t
    · rw [if_pos hle]
      obtain ⟨hp, hcase⟩ := h
      refine ⟨hp, Or.inr ⟨rfl, ?_⟩⟩
      intro p hp' hm
      rcases hcase with ⟨htrig, u', hu', hb⟩ | ⟨htrig, hb⟩
      · rw [hu] at hu'
        injection hu' with huu
        subst huu
        exact le_trans (hb p hp' hm) hle
      · exact le_trans (hb p hp' hm) hct
    · rw [if_neg hle]
      exact crashInv_mono h hct

theorem crashInv_trigger {t : Nat} {s : CrashState}
    (hnt : s.crashTriggered = false) (h : CrashInv t s) :
    CrashInv t (triggerCrashFromError t s) := by
  obtain ⟨hp, hcase⟩ := h
  rcases hcase with ⟨htrig, _⟩ | ⟨_, hb⟩
  · rw [hnt] at htrig
    exact Bool.noConfusion htrig
  · constructor
    · show (s.emitted ++ [(t, DetectionMethod.error_based)]).Pairwise cooldownSeparated
      rw [List.pairwise_append]
      refine ⟨hp, by simp [cooldownSeparated], ?_⟩
      intro a ha b hbmem
      rw [List.mem_singleton] at hbmem
      subst hbmem
      intro hm
      exact hb a ha hm
    · left
      refine ⟨rfl, t + 10000, rfl, ?_⟩
      intro p hp' hm
      have hp'' : p ∈ s.emitted ++ [(t, DetectionMethod.error_based)] := hp'
      rcases List.mem_append.mp hp'' with hin | hin
      · exact le_trans (hb p hin hm) (by omega)
      · rw [List.mem_singleton] at hin
        subst hin
        omega

theorem crashInv_checkError {t : Nat} {s : CrashState} {e : ErrEntry}
    (h : CrashInv t s) : CrashInv t (checkForErrorBasedCrash t s e) := by
  unfold checkForErrorBasedCrash
  split
  · next hc =>
    dsimp only
    split
    · next htr =>
      have hnt : s.crashTriggered = false := by
        cases hbb : s.crashTriggered
        · rfl
        · rw [hbb] at htr
          simp at htr
      exact crashInv_trigger hnt (crashInv_fields h rfl rfl rfl)
    · next htr => exact crashInv_fields h rfl rfl rfl
  · next hc => exact h

theorem crashInv_checkDOM {t : Nat} {s : CrashState} {d : Option String}
    (h : CrashInv t s) : CrashInv t (checkForDOMCrash t s d) := by
  cases d with
  | none => exact h
  | some r =>
    show CrashInv t
      (if (s.lastDOMCrashReason != some r) = true then
        (if (!s.crashTriggered) = true then
          { s with lastDOMCrashReason := some r,
                   emitted := s.emitted ++ [(t, DetectionMethod.dom_based)] }
         else { s with lastDOMCrashReason := some r })
       else s)
    by_cases hne : (s.lastDOMCrashReason != some r) = true
    · rw [if_pos hne]
      by_cases hnt : (!s.crashTriggered) = true
      · rw [if_pos hnt]
        obtain ⟨hp, hcase⟩ := h
        have hfalse : s.crashTriggered = false := by
          cases hbb : s.crashTriggered
          · rfl
          · rw [hbb] at hnt
            simp at hnt
        rcases hcase with ⟨htrig, _⟩ | ⟨-, hb⟩
        · rw [hfalse] at htrig
          exact Bool.noConfusion htrig
        · constructor
          · show (s.emitted ++ [(t, DetectionMethod.dom_based)]).Pairwise
              cooldownSeparated
            rw [List.pairwise_append]
            refine ⟨hp, by simp [cooldownSeparated], ?_⟩
            intro a ha b hbmem
            rw [List.mem_singleton] at hbmem
            subst hbmem
            intro hm
            exact hb a ha hm
          · right
            refine ⟨hfalse, ?_⟩
            intro p hp' hm
            have hp'' : p ∈ s.emitted ++ [(t, DetectionMethod.dom_based)] := hp'
            rcases List.mem_append.mp hp'' with hin | hin
            · exact hb p hin hm
            · rw [List.mem_singleton] at hin
              subst hin
              exact absurd hm (by simp)
      · rw [if_neg hnt]
        exact crashInv_fields h rfl rfl rfl
    · rw [if_neg hne]
      exact h

theorem crashInv_step {c : Nat} {s : CrashState} {ev : AgentEvent}
    (h : CrashInv c s) (hct : c ≤ eventTime ev) :
    CrashInv (eventTime ev) (crashStep s ev) := by
  cases ev with
  | errorRecord t e => exact crashInv_checkError (crashInv_unlatch h hct)
  | domCheck t d => exact crashInv_checkDOM (crashInv_unlatch h hct)

theorem crashInv_foldl : ∀ (evs : List AgentEvent) (s : CrashState) (c : Nat),
    CrashInv c s → List.Chain (fun a b => a ≤ b) c (evs.map eventTime) →
    ∃ c', CrashInv c' (evs.foldl crashStep s) := by
  intro evs
  induction evs with
  | nil =>
    intro s c h _
    exact ⟨c, h⟩
  | cons ev rest ih =>
    intro s c h hch
    rw [List.map_cons] at hch
    cases hch with
    | cons hab hrest =>
      exact ih (crashStep s ev) (eventTime ev) (crashInv_step h hab) hrest

/-- C4 amended: triggerCrashFromError latches crashTriggered and both
detectors are guarded by the latch, so after an error_based CrashEvent at
time T no CrashEvent of either detection method is emitted until T+10000;
a dom_based emission, however, does not latch or start a cooldown, so a
window starting at a dom_based emission can contain a second CrashEvent
(see the counterexample). -/
theorem no_emission_within_10s_after_error_crash (evs : List AgentEvent)
    (hmono : List.Chain (fun a b => a ≤ b) 0 (evs.map eventTime)) :
    (runCrash evs).emitted.Pairwise cooldownSeparated := by
  obtain ⟨c', hinv⟩ := crashInv_foldl evs initialCrashState 0
    ⟨List.Pairwise.nil,
     Or.inr ⟨rfl, fun p hp _ => absurd hp (List.not_mem_nil p)⟩⟩ hmono
  exact hinv.1

/-- Witness for C4 amended on a concrete monotone trace. -/
theorem no_emission_within_10s_after_error_crash_witness :
    (runCrash [.errorRecord 100 refErr]).emitted.Pairwise cooldownSeparated :=
  no_emission_within_10s_after_error_crash [.errorRecord 100 refErr]
    (List.Chain.cons (by omega) List.Chain.nil)

/-! ## C10 -/

/-- Every DOM check in the continuation reports either nothing or the same
reason `r`; error records are unrestricted. -/
def domOnlyReason (r : String) : AgentEvent → Prop
  | .domCheck _ d => d = none ∨ d = some r
  | .errorRecord _ _ => True

theorem runPendingUnlatch_emitted (t : Nat) (s : CrashState) :
    (runPendingUnlatch t s).emitted = s.emitted := by
  unfold runPendingUnlatch
  cases s.unlatchAt with
  | none => rfl
  | some u => dsimp only; split <;> rfl

theorem runPendingUnlatch_last (t : Nat) (s : CrashState) :
    (runPendingUnlatch t s).lastDOMCrashReason = s.lastDOMCrashReason := by
  unfold runPendingUnlatch
  cases s.unlatchAt with
  | none => rfl
  | some u => dsimp only; split <;> rfl

theorem checkError_last (t : Nat) (s : CrashState) (e : ErrEntry) :
    (checkForErrorBasedCrash t s e).lastDOMCrashReason = s.lastDOMCrashReason := by
  unfold checkForErrorBasedCrash
  split
  · dsimp only
    split
    · rfl
    · rfl
  · rfl

theorem checkError_emitted_sub {t : Nat} {s : CrashState} {e : ErrEntry}
    {p : Nat × DetectionMethod}
    (hp : p ∈ (checkForErrorBasedCrash t s e).emitted) :
    p ∈ s.emitted ∨ p = (t, DetectionMethod.error_based) := by
  unfold checkForErrorBasedCrash at hp
  split at hp
  · dsimp only at hp
    split at hp
    · have hp' : p ∈ s.emitted ++ [(t, DetectionMethod.error_based)] := hp
      rcases List.mem_append.mp hp' with h | h
      · exact Or.inl h
      · right
        rwa [List.mem_singleton] at h
    · exact Or.inl hp
  · exact Or.inl hp

theorem domCheck_same_reason {t : Nat} {x : CrashState} {r : String}
    (hlast : x.lastDOMCrashReason = some r) :
    checkForDOMCrash t x (some r) = x := by
  unfold checkForDOMCrash
  rw [hlast]
  simp

/-- Fold preservation: once lastDOMCrashReason is pinned at `r` and all
further DOM checks report none-or-`r`, no new dom_based emission is ever
appended. -/
theorem domInv_fold (r : String) (base : List (Nat × DetectionMethod)) :
    ∀ (evs : List AgentEvent) (x : CrashState),
      (∀ ev ∈ evs, domOnlyReason r ev) →
      x.lastDOMCrashReason = some r →
      (∀ p ∈ x.emitted, p.2 = DetectionMethod.dom_based → p ∈ base) →
      (∀ p ∈ (evs.foldl crashStep x).emitted,
        p.2 = DetectionMethod.dom_based → p ∈ base) ∧
      (evs.foldl crashStep x).lastDOMCrashReason = some r := by
  intro evs
  induction evs with
  | nil =>
    intro x _ hlast hmem
    exact ⟨hmem, hlast⟩
  | cons ev rest ih =>
    intro x hdom hlast hmem
    have hdomev := hdom ev (List.mem_cons_self ev rest)
    have hdomrest : ∀ e ∈ rest, domOnlyReason r e :=
      fun e he => hdom e (List.mem_cons_of_mem ev he)
    rw [List.foldl_cons]
    cases ev with
    | errorRecord t' e =>
      apply ih (crashStep x (.errorRecord t' e)) hdomrest
      · show (checkForErrorBasedCrash t' (runPendingUnlatch t' x) e).lastDOMCrashReason
          = some r
        rw [checkError_last, runPendingUnlatch_last]
        exact hlast
      · intro p hp hdm
        have hp' := checkError_emitted_sub hp
        rcases hp' with h | h
        · rw [runPendingUnlatch_emitted] at h
          exact hmem p h hdm
        · rw [h] at hdm
          exact absurd hdm (by simp)
    | domCheck t' d =>
      rcases hdomev with hnone | hsome
      · subst hnone
        apply ih (crashStep x (.domCheck t' none)) hdomrest
        · show (checkForDOMCrash t' (runPendingUnlatch t' x) none).lastDOMCrashReason
            = some r
          rw [show checkForDOMCrash t' (runPendingUnlatch t' x) none =
            runPendingUnlatch t' x from rfl, runPendingUnlatch_last]
          exact hlast
        · intro p hp hdm
          rw [show crashStep x (.domCheck t' none) =
            runPendingUnlatch t' x from rfl, runPendingUnlatch_emitted] at hp
          exact hmem p hp hdm
      · subst hsome
        have hxlast : (runPendingUnlatch t' x).lastDOMCrashReason = some r := by
          rw [runPendingUnlatch_last]
          exact hlast
        apply ih (crashStep x (.domCheck t' (some r))) hdomrest
        · show (checkForDOMCrash t' (runPendingUnlatch t' x)
            (some r)).lastDOMCrashReason = some r
          rw [domCheck_same_reason hxlast]
          exact hxlast
        · intro p hp hdm
          rw [show crashStep x (.domCheck t' (some r)) =
            checkForDOMCrash t' (runPendingUnlatch t' x) (some r) from rfl,
            domCheck_same_reason hxlast, runPendingUnlatch_emitted] at hp
          exact hmem p hp hdm

/-- C10: when the DOM watcher first matches a reason while the error-based
latch is still set, it records the reason in lastDOMCrashReason without
emitting; from then on, as long as DOM checks keep reporting that same
reason (or nothing), no dom_based CrashEvent is ever emitted - the
suppressed report is dropped for good, even after the latch clears. -/
theorem dom_crash_dedup_is_permanent (s : CrashState) (t : Nat) (r : String)
    (evs : List AgentEvent)
    (hlatched : (runPendingUnlatch t s).crashTriggered = true)
    (hdom : ∀ ev ∈ evs, domOnlyReason r ev) :
    (crashStep s (.domCheck t (some r))).emitted = s.emitted ∧
    (crashStep s (.domCheck t (some r))).lastDOMCrashReason = some r ∧
    (∀ p ∈ (evs.foldl crashStep (crashStep s (.domCheck t (some r)))).emitted,
      p.2 = DetectionMethod.dom_based → p ∈ s.emitted) := by
  have hstepAux : ∀ (x : CrashState), x.crashTriggered = true →
      checkForDOMCrash t x (some r) =
        (if (x.lastDOMCrashReason != some r) = true then
          { x with lastDOMCrashReason := some r } else x) := by
    intro x hx
    show (if (x.lastDOMCrashReason != some r) = true then
        (if (!x.crashTriggered) = true then
          { x with lastDOMCrashReason := some r,
                   emitted := x.emitted ++ [(t, DetectionMethod.dom_based)] }
         else { x with lastDOMCrashReason := some r })
       else x) = _
    by_cases hne : (x.lastDOMCrashReason != some r) = true
    · rw [if_pos hne, if_pos hne,
        if_neg (show ¬((!x.crashTriggered) = true) by simp [hx])]
    · rw [if_neg hne, if_neg hne]
  have hq := hstepAux (runPendingUnlatch t s) hlatched
  have hqe : (crashStep s (.domCheck t (some r))).emitted = s.emitted := by
    show (checkForDOMCrash t (runPendingUnlatch t s) (some r)).emitted = s.emitted
    rw [hq]
    by_cases hne : ((runPendingUnlatch t s).lastDOMCrashReason != some r) = true
    · rw [if_pos hne]
      exact runPendingUnlatch_emitted t s
    · rw [if_neg hne]
      exact runPendingUnlatch_emitted t s
  have hql : (crashStep s (.domCheck t (some r))).lastDOMCrashReason = some r := by
    show (checkForDOMCrash t (runPendingUnlatch t s)
      (some r)).lastDOMCrashReason = some r
    rw [hq]
    by_cases hne : ((runPendingUnlatch t s).lastDOMCrashReason != some r) = true
    · rw [if_pos hne]
    · rw [if_neg hne]
      simp at hne
      exact hne
  refine ⟨hqe, hql, ?_⟩
  have hfold := domInv_fold r s.emitted evs (crashStep s (.domCheck t (some r)))
    hdom hql (by rw [hqe]; exact fun p hp _ => hp)
  exact hfold.1

/-- A latched state with a pending unlatch well after the DOM check. -/
def c10State : CrashState :=
  { crashTriggered := true, unlatchAt := some 5000,
    emitted := [(0, DetectionMethod.error_based)] }

/-- Witness for C10: concrete latched state, matched reason recorded
without emission, and the same reason re-checked after the unlatch time
still emits nothing. -/
theorem dom_crash_dedup_is_permanent_witness :
    (crashStep c10State
      (.domCheck 100 (some "Element: .error-boundary"))).lastDOMCrashReason =
      some "Element: .error-boundary" :=
  (dom_crash_dedup_is_permanent c10State 100 "Element: .error-boundary"
    [.domCheck 20000 (some "Element: .error-boundary")] rfl
    (fun ev hev => by
      rw [List.mem_singleton] at hev
      subst hev
      exact Or.inr rfl)).2.1

end L2Agent
